import Mathlib

/-!
# Verification of the orderFood-system order-numbering and receipt-formatting engine

This file is a shallow embedding, in Lean 4, of the core of the
`orderFood-system` repository:

* the sequence allocator `generateOrderNumber` and the order assembler
  `createOrder` from `orderFood-server/services/orderFoodService.js`;
* the receipt renderer and print driver adapter `printOrderReceipt`
  (with its helpers `truncateText`, `getDisplayWidth`, `leftAlign`,
  `centerAlign`, `rightAlign`, `buildTableRow`) from the printer
  service module.

Conventions of the embedding:

* JavaScript strings are modelled as Lean `String`; all the characters
  that occur in this system live in the Basic Multilingual Plane, where
  JS UTF-16 length and Lean character count coincide.
* JS numbers that are only ever integers in the modelled paths
  (counters, ids, quantities, date fields) are modelled as `Nat`/`Int`;
  currency amounts are carried as exact integers where the assembler
  multiplies them and as their literal decimal string rendering where
  the renderer only passes them through `String(·)` (IEEE-754 rounding
  is not modelled; no claim below depends on float arithmetic).
* The JSON-encoded values in the `settings` table are modelled by their
  parse results (`JVal`): an integer, a string, or `jbad` for a text on
  which `JSON.parse` throws.
* Fallible database operations return `Except String`; a `FailOracle`
  says which operations fail, so that error-handling paths of the
  source can be exercised.
* The Sequelize transaction of `createOrder` is modelled by running the
  transactional body on a scratch copy of the database: commit makes
  the scratch the new database, rollback restores the original one
  (this snapshot semantics is the guarantee assumed of the underlying
  store; the theorems are about the code calling commit/rollback in the
  right places and doing no writes outside the transaction).
-/

namespace OrderFood

/-! ## JS string and number primitives -/

/-- `s.substring(0, n)` / `s.slice(0, n)`: the first `n` characters. -/
def jsTake (s : String) (n : Nat) : String := String.mk (s.data.take n)

/-- `s.substring(n)`: drop the first `n` characters. -/
def jsDrop (s : String) (n : Nat) : String := String.mk (s.data.drop n)

/-- `c.repeat(n)` for a single character: `n` copies of `c`. -/
def strRepeat (c : Char) (n : Nat) : String := String.mk (List.replicate n c)

/-- `s.padStart(n, c)`. -/
def padStartC (s : String) (n : Nat) (c : Char) : String :=
  if n ≤ s.length then s else String.mk (List.replicate (n - s.length) c ++ s.data)

/-- The decimal digit character for `d < 10` (the table makes kernel
reduction and digit-ness proofs immediate). -/
def digitChar : Nat → Char
  | 0 => '0' | 1 => '1' | 2 => '2' | 3 => '3' | 4 => '4'
  | 5 => '5' | 6 => '6' | 7 => '7' | 8 => '8' | _ => '9'

/-- Fuel-indexed decimal digit list of a natural number (most
significant digit first); `fuel > n` is always enough fuel. The fuel
makes the recursion structural, so concrete values reduce in the
kernel. -/
def natDigits (fuel n : Nat) : List Char :=
  match fuel with
  | 0 => []
  | fuel + 1 => if n < 10 then [digitChar n] else natDigits fuel (n / 10) ++ [digitChar (n % 10)]

/-- `String(n)` for a nonnegative integer-valued JS number. -/
def natStr (n : Nat) : String := String.mk (natDigits (n + 1) n)

/-- `String(i)` for an integer-valued JS number. -/
def intStr (i : Int) : String :=
  if i < 0 then "-" ++ natStr i.natAbs else natStr i.toNat

/-- `String(n).padStart(2, '0')`. -/
def pad2 (n : Nat) : String := padStartC (natStr n) 2 '0'

/-- `Date.now().toString().slice(-8)`: the last 8 characters of the
decimal millisecond timestamp. -/
def last8 (n : Nat) : String := jsDrop (natStr n) ((natStr n).length - 8)

/-- JS `x || 0` applied to a `parseInt` result: `NaN ↦ 0`; a numeric `0`
is falsy and also maps to `0`, which coincides with `Option.getD 0`. -/
def jsOrInt (o : Option Int) : Int := o.getD 0

/-- The value of a decimal digit list (most significant first). -/
def digitsToNat (l : List Char) : Nat :=
  l.foldl (fun a c => a * 10 + (c.toNat - 48)) 0

/-- JS `parseInt` on a string: skip leading spaces, optional sign, then
a maximal run of decimal digits; `none` models `NaN`. (The hexadecimal
`0x` form of `parseInt` never arises for the stored values and is not
modelled.) -/
def parseIntJS (s : String) : Option Int :=
  let t := s.data.dropWhile (fun c => c == ' ')
  match t with
  | '-' :: rest =>
    let d := rest.takeWhile Char.isDigit
    if d.isEmpty then none else some (-(digitsToNat d : Int))
  | '+' :: rest =>
    let d := rest.takeWhile Char.isDigit
    if d.isEmpty then none else some (digitsToNat d)
  | _ =>
    let d := t.takeWhile Char.isDigit
    if d.isEmpty then none else some (digitsToNat d)

/-! ## The settings store (`Settings` table)

Each row holds a string key and a JSON-encoded value; the model carries
the `JSON.parse` result of the stored text. -/

/-- Parse result of a stored JSON value: an integer, a string, or a
text on which `JSON.parse` throws (`jbad`). (JSON fractional numbers
never occur on the modelled keys and are not represented.) -/
inductive JVal where
  | jint (n : Int)
  | jstr (s : String)
  | jbad
deriving DecidableEq

structure SettingRow where
  key : String
  value : JVal
deriving DecidableEq

/-- The `settings` table, in row order. -/
abbrev SettingsStore := List SettingRow

/-- Which database operations fail: settings reads/writes on the listed
keys, the `Order.create` insert, and the `OrderItem.create` inserts at
the listed item indices. -/
structure FailOracle where
  failKeys : List String
  failOrderInsert : Bool
  failItemInserts : List Nat
deriving DecidableEq

def noFail : FailOracle := ⟨[], false, []⟩

/-- `Settings.findOne({where: {key}})` (failure per the oracle). -/
def findOneS (fo : FailOracle) (st : SettingsStore) (k : String) :
    Except String (Option SettingRow) :=
  if k ∈ fo.failKeys then .error "settings read failed"
  else .ok (st.find? (fun r => r.key == k))

/-- `row.update({value})`: replace the value of the first row with the
given key (the row `findOne` returned). -/
def updateFirstL : SettingsStore → String → JVal → SettingsStore
  | [], _, _ => []
  | r :: rs, k, v =>
    if r.key == k then { r with value := v } :: rs else r :: updateFirstL rs k v

def updateFirstE (fo : FailOracle) (st : SettingsStore) (k : String) (v : JVal) :
    Except String SettingsStore :=
  if k ∈ fo.failKeys then .error "settings write failed"
  else .ok (updateFirstL st k v)

/-- `Settings.create({key, value, ...})`: append a new row. -/
def createE (fo : FailOracle) (st : SettingsStore) (k : String) (v : JVal) :
    Except String SettingsStore :=
  if k ∈ fo.failKeys then .error "settings insert failed"
  else .ok (st ++ [⟨k, v⟩])

/-! ## The sequence allocator `generateOrderNumber` -/

/-- The server's local clock reading (`new Date()` field accessors). -/
structure DateTime where
  year : Nat
  month : Nat
  day : Nat
  hour : Nat
  minute : Nat
  second : Nat
deriving DecidableEq

/-- Ambient inputs of one allocation: the clock, the millisecond
timestamp `Date.now()`, the 2-digit random draw
`Math.floor(Math.random() * 100)`, and the failure oracle. -/
structure Env where
  now : DateTime
  nowMs : Nat
  rand : Nat
  fo : FailOracle

/-- `YYYYMMDD` (year rendered by `String(·)`, month/day zero-padded). -/
def dateStrOf (d : DateTime) : String := natStr d.year ++ pad2 d.month ++ pad2 d.day

/-- `HHMMSS`. -/
def timeStrOf (d : DateTime) : String := pad2 d.hour ++ pad2 d.minute ++ pad2 d.second

/-- `parseInt(JSON.parse(value))` once `JSON.parse` has succeeded:
`none` models `NaN`. -/
def parseIntJV : JVal → Option Int
  | .jint n => some n
  | .jstr s => parseIntJS s
  | .jbad => none

/-- `String(storeId || 1).padStart(3, '0').slice(0, 3)`. -/
def storeNumFromId (storeId : Nat) : String :=
  jsTake (padStartC (natStr (if storeId = 0 then 1 else storeId)) 3 '0') 3

/-- Step 2 of the allocator: the 3-character store-number field, from
the `store_number` setting when present and JSON-parseable (an
unparseable value is caught and falls back to the store id; a parse to
`NaN` renders as the string `"NaN"`). -/
def storeNumberOf (fo : FailOracle) (storeId : Nat) (st : SettingsStore) :
    Except String String :=
  match findOneS fo st "store_number" with
  | .error e => .error e
  | .ok none => .ok (storeNumFromId storeId)
  | .ok (some row) =>
    match row.value with
    | .jbad => .ok (storeNumFromId storeId)
    | v =>
      .ok (jsTake (padStartC (match parseIntJV v with
            | some n => intStr n
            | none => "NaN") 3 '0') 3)

/-- The per-kind counter key: `0 =` dine-in, `1 =` takeout. -/
def sequenceKeyOf (orderType : Nat) : String :=
  if orderType = 1 then "daily_takeout_sequence" else "daily_dine_in_sequence"

def dateKey : String := "daily_sequence_date"

/-- `currentDate !== todayDateStr` is false exactly when the stored
date value parsed to the string equal to today (a number, a failed
parse, or a missing row never equals a string under `!==`). -/
def dateMatches (dateRow : Option SettingRow) (today : String) : Bool :=
  match dateRow with
  | some ⟨_, .jstr s⟩ => s == today
  | _ => false

structure GenResult where
  orderNumber : String
  dailySequence : Int
deriving DecidableEq

/-- The body of `generateOrderNumber` (everything inside the `try`),
threading the settings store; an `.error` is an exception reaching the
outer catch, with the store reflecting the writes already performed. -/
def genBody (env : Env) (orderType storeId : Nat) (st0 : SettingsStore) :
    Except String GenResult × SettingsStore :=
  let businessCode : String := if orderType = 1 then "T" else "D"
  match storeNumberOf env.fo storeId st0 with
  | .error e => (.error e, st0)
  | .ok storeNumber =>
    let dateStr := dateStrOf env.now
    let timeStr := timeStrOf env.now
    let nodeNumber := pad2 env.rand
    let todayDateStr := dateStr
    let seqKey := sequenceKeyOf orderType
    let mkCode : Int → String := fun ds =>
      businessCode ++ storeNumber ++ dateStr ++ timeStr ++ nodeNumber ++
        padStartC (intStr ds) 4 '0'
    match findOneS env.fo st0 seqKey with
    | .error e => (.error e, st0)
    | .ok seqRow =>
      match findOneS env.fo st0 dateKey with
      | .error e => (.error e, st0)
      | .ok dateRow =>
        if dateMatches dateRow todayDateStr then
          -- date matches: increment the kind-specific counter
          match seqRow with
          | some row =>
            match row.value with
            | .jbad =>
              -- JSON.parse threw: the catch resets the counter to 1
              match updateFirstE env.fo st0 seqKey (.jint 1) with
              | .error e => (.error e, st0)
              | .ok st1 => (.ok ⟨mkCode 1, 1⟩, st1)
            | v =>
              let ds := jsOrInt (parseIntJV v) + 1
              match updateFirstE env.fo st0 seqKey (.jint ds) with
              | .error _ =>
                -- the catch also catches a failing update; it retries
                -- with the counter reset to 1
                match updateFirstE env.fo st0 seqKey (.jint 1) with
                | .error e2 => (.error e2, st0)
                | .ok st1 => (.ok ⟨mkCode 1, 1⟩, st1)
              | .ok st1 => (.ok ⟨mkCode ds, ds⟩, st1)
          | none =>
            match createE env.fo st0 seqKey (.jint 1) with
            | .error e => (.error e, st0)
            | .ok st1 => (.ok ⟨mkCode 1, 1⟩, st1)
        else
          -- date mismatch: write today's date, then reset the counter
          match (match dateRow with
                 | some _ => updateFirstE env.fo st0 dateKey (.jstr todayDateStr)
                 | none => createE env.fo st0 dateKey (.jstr todayDateStr)) with
          | .error e => (.error e, st0)
          | .ok st1 =>
            match (match seqRow with
                   | some _ => updateFirstE env.fo st1 seqKey (.jint 1)
                   | none => createE env.fo st1 seqKey (.jint 1)) with
            | .error e => (.error e, st1)
            | .ok st2 => (.ok ⟨mkCode 1, 1⟩, st2)

/-- The fallback result built in the outer `catch`:
`'OF' + Date.now().toString().slice(-8)` with `dailySequence = 0`. -/
def fallbackResult (nowMs : Nat) : GenResult :=
  ⟨"OF" ++ last8 nowMs, 0⟩

/-- `generateOrderNumber(orderType, storeId, transaction)`: the body
under the outer `try`/`catch`; any error is swallowed and replaced by
the timestamp fallback (the writes already performed stay in the
transaction). The function never throws. -/
def generateOrderNumber (env : Env) (orderType storeId : Nat)
    (st : SettingsStore) : GenResult × SettingsStore :=
  match genBody env orderType storeId st with
  | (.ok r, st') => (r, st')
  | (.error _, st') => (fallbackResult env.nowMs, st')

/-! ## The order assembler `createOrder`

The relational store: catalog (`Meal`), payment methods, settings,
orders and order lines. Only the columns the modelled control flow
reads are carried. -/

structure MealRow where
  id : Nat
  isActive : Bool
deriving DecidableEq

structure PaymentMethodRow where
  id : Nat
  isActive : Bool
deriving DecidableEq

structure OrderRow where
  id : Nat
  orderNumber : String
  storeId : Nat
  totalAmount : Int
  orderType : Nat
  paymentMethodId : Option Nat
  status : String
  printStatus : Option String
  printMessage : Option String
  dailySequence : Int
deriving DecidableEq

structure OrderItemRow where
  orderId : Nat
  mealId : Nat
  quantity : Nat
  price : Int
  subtotal : Int
deriving DecidableEq

structure DB where
  meals : List MealRow
  payments : List PaymentMethodRow
  settings : SettingsStore
  orders : List OrderRow
  orderItems : List OrderItemRow
  nextOrderId : Nat
deriving DecidableEq

/-- One element of `orderData.items`. -/
structure ItemInput where
  mealId : Nat
  quantity : Nat
  price : Int
deriving DecidableEq

/-- The argument of `createOrder` after destructuring (the JS defaults
`storeId = 1`, `orderType = 0` are applied by the destructuring). -/
structure CreateInput where
  items : List ItemInput
  totalAmount : Int
  storeId : Nat
  orderType : Nat
  paymentMethodId : Option Nat
deriving DecidableEq

structure CreateResult where
  message : String
  orderNumber : String
deriving DecidableEq

instance {α β : Type} [DecidableEq α] [DecidableEq β] :
    DecidableEq (Except α β) := fun a b =>
  match a, b with
  | .ok x, .ok y =>
    if h : x = y then .isTrue (by rw [h])
    else .isFalse (fun hc => h (Except.ok.inj hc))
  | .error x, .error y =>
    if h : x = y then .isTrue (by rw [h])
    else .isFalse (fun hc => h (Except.error.inj hc))
  | .ok _, .error _ => .isFalse (fun hc => Except.noConfusion hc)
  | .error _, .ok _ => .isFalse (fun hc => Except.noConfusion hc)

/-- Outcome of one `createOrder` call: the returned/raised result, the
database afterwards, and whether a transaction was opened. -/
structure CreateOutcome where
  result : Except String CreateResult
  db : DB
  txOpened : Bool
deriving DecidableEq

/-- The `OrderItem.create` loop: insert one line per input item, with
`subtotal = price * quantity`; the oracle can fail the insert at any
item index. -/
def insertItems (fo : FailOracle) (oid : Nat) :
    List ItemInput → Nat → List OrderItemRow → Except String (List OrderItemRow)
  | [], _, acc => .ok acc
  | it :: rest, idx, acc =>
    if idx ∈ fo.failItemInserts then .error "order item insert failed"
    else insertItems fo oid rest (idx + 1)
      (acc ++ [⟨oid, it.mealId, it.quantity, it.price, it.price * (it.quantity : Int)⟩])

/-- The transactional body of `createOrder`: allocate the order number
(inside the same transaction), insert the `Order` row, insert one
`OrderItem` row per line. An `.error` reaches the catch that rolls the
transaction back. -/
def txBody (env : Env) (inp : CreateInput) (db0 : DB) :
    Except String (CreateResult × DB) :=
  let gen := generateOrderNumber env inp.orderType inp.storeId db0.settings
  let gr := gen.1
  if env.fo.failOrderInsert then .error "order insert failed"
  else
    let oid := db0.nextOrderId
    let order : OrderRow :=
      ⟨oid, gr.orderNumber, inp.storeId, inp.totalAmount, inp.orderType,
        (match inp.paymentMethodId with
         | some p => if p = 0 then none else some p
         | none => none),
        "paid", none, none, gr.dailySequence⟩
    match insertItems env.fo oid inp.items 0 db0.orderItems with
    | .error e => .error e
    | .ok items1 =>
      .ok (⟨"订单创建成功，正在打印小票...", gr.orderNumber⟩,
        { db0 with
          settings := gen.2
          orders := db0.orders ++ [order]
          orderItems := items1
          nextOrderId := oid + 1 })

/-- `createOrder(orderData)`: the empty-lines check and the catalog /
payment-method validation run before any transaction; then the
transactional body runs on a scratch copy of the database — commit on
success, rollback (the original database) on failure. The follow-up
asynchronous print and its best-effort status update happen after
commit and are modelled separately by `printOrderReceipt`. -/
def createOrder (env : Env) (inp : CreateInput) (db : DB) : CreateOutcome :=
  if inp.items.isEmpty then ⟨.error "订单明细不能为空", db, false⟩
  else
    let mealIds := inp.items.map (·.mealId)
    let meals := db.meals.filter (fun m => mealIds.contains m.id && m.isActive)
    if meals.length ≠ mealIds.length then
      ⟨.error "部分菜品不存在或已下架", db, false⟩
    else
      let payInvalid : Bool :=
        match inp.paymentMethodId with
        | some p =>
          -- JS `if (paymentMethodId)`: 0 is falsy and skips the check
          decide (p ≠ 0) &&
            (db.payments.find? (fun pm => pm.id == p && pm.isActive)).isNone
        | none => false
      if payInvalid then ⟨.error "付款方式不存在或已禁用", db, false⟩
      else
        match txBody env inp db with
        | .ok (res, db') => ⟨.ok res, db', true⟩
        | .error e => ⟨.error e, db, true⟩

/-! ## The receipt renderer and print driver adapter

`printOrderReceipt` from the printer service. The source interleaves
computing each line with dispatching it to the DLL; since none of the
computed text depends on a device response (all `Pos_*`/`printText`
return values on the render path are ignored), the embedding separates
the pure primitive sequence (`renderCalls`) from its dispatch
(`dispatchPrims`). Font size multipliers (0.7 / 0.9 / 1.0 / 1.5) are
carried in tenths to stay in `Nat`. -/

/-- The character class of the width regex
`/[一-鿿㐀-䶿豈-﫿]/`. -/
def isCJK (c : Char) : Bool :=
  (0x4e00 ≤ c.toNat && c.toNat ≤ 0x9fff) ||
  (0x3400 ≤ c.toNat && c.toNat ≤ 0x4dbf) ||
  (0xf900 ≤ c.toNat && c.toNat ≤ 0xfaff)

/-- A CJK character occupies 2 ASCII columns, anything else 1. -/
def charWidth (c : Char) : Nat := if isCJK c then 2 else 1

/-- `getDisplayWidth`: the display width of a string in ASCII columns. -/
def getDisplayWidth (s : String) : Nat := (s.data.map charWidth).sum

/-- `leftAlign`: pad on the right with spaces up to the target display
width (`Math.max(0, ...)` is the `Nat` truncated subtraction). -/
def leftAlign (text : String) (targetWidth : Nat) : String :=
  text ++ strRepeat ' ' (targetWidth - getDisplayWidth text)

/-- `centerAlign`. -/
def centerAlign (text : String) (targetWidth : Nat) : String :=
  let totalPadding := targetWidth - getDisplayWidth text
  let leftPadding := totalPadding / 2
  strRepeat ' ' leftPadding ++ text ++ strRepeat ' ' (totalPadding - leftPadding)

/-- `rightAlign`. -/
def rightAlign (text : String) (targetWidth : Nat) : String :=
  strRepeat ' ' (targetWidth - getDisplayWidth text) ++ text

/-- `truncateText`: keep the string if its length (in characters) is
within `maxWidth`, otherwise keep `maxWidth - 1` characters and append
an ellipsis. (The source's falsy guard returns `''` for an empty input,
which the else branch does too.) -/
def truncateText (text : String) (maxWidth : Nat) : String :=
  if maxWidth < text.length then jsTake text (maxWidth - 1) ++ "…" else text

def COL_WIDTH_NAME : Nat := 16
def COL_WIDTH_QTY : Nat := 8
def COL_WIDTH_PRICE : Nat := 10
def COL_WIDTH_AMOUNT : Nat := 14
def MAX_LINE_WIDTH : Nat := 48
def PAY_LABEL_WIDTH : Nat := 12

def SEPARATOR_LINE : String := strRepeat '-' 48

def TRADITIONAL_CHINESE_ENCODING : Nat := 3

/-- `buildTableRow`: the four fixed-width columns (16 + 8 + 10 + 14). -/
def buildTableRow (name qty price amount : String) (nameAlignCenter : Bool) : String :=
  (if nameAlignCenter then centerAlign name COL_WIDTH_NAME
   else leftAlign name COL_WIDTH_NAME) ++
  centerAlign qty COL_WIDTH_QTY ++
  centerAlign price COL_WIDTH_PRICE ++
  centerAlign amount COL_WIDTH_AMOUNT

/-- `buildLabelValueLine`: label column padded to 12 display units,
two spaces, then the value. -/
def buildLabelValueLine (label value : String) : String :=
  leftAlign label PAY_LABEL_WIDTH ++ "  " ++ value

/-- The payment-amount line: label and amount justified to the ends of
the 48-unit line with at least one space between (a negative JS
difference and the `Nat` truncated difference both land on
`Math.max(1, ...) = 1`). -/
def payAmountLine (total_amount : String) : String :=
  let payAmountText := "HK$" ++ total_amount
  let labelWidth := getDisplayWidth "支付金額"
  let amountWidth := getDisplayWidth payAmountText
  let spaceWidth := max 1 (MAX_LINE_WIDTH - labelWidth - amountWidth)
  "支付金額" ++ strRepeat ' ' spaceWidth ++ payAmountText

/-- One element of `orderData.items` as handed to the printer: the
numeric price/subtotal are carried as their decimal renderings, on
which the source's `String(·)` is the identity. -/
structure ReceiptItem where
  name : String
  quantity : Int
  price : String
  subtotal : String
deriving DecidableEq

/-- The `printData` record assembled by `createOrder` and consumed by
`printOrderReceipt`. -/
structure PrintData where
  order_number : String
  daily_sequence : Option Int
  order_type : Nat
  items : List ReceiptItem
  total_amount : String
  total_quantity : Option Int
  order_time : String
  store_name_zh : String
  store_name_en : String
  payment_type_zh : String
  payment_type_en : String
deriving DecidableEq

/-- The printer configuration fields the receipt path reads. -/
structure PrinterConfig where
  textEncoding : Nat
  checkStatus : Bool
deriving DecidableEq

/-- One print primitive: a text run with encoding, position, size
multipliers (in tenths) and style flags, or a feed / n-line feed /
alignment / cut command. -/
inductive Prim where
  | text (s : String) (encoding : Nat) (position : Int)
      (widthTenths heightTenths : Nat) (fontType : Nat) (fontStyle : Nat)
  | feed
  | feedN (n : Nat)
  | align (mode : Nat)
  | cut
deriving DecidableEq

/-- The store-name header line: both names joined with `" - "` when
both are non-empty (JS truthiness on strings). -/
def storeNameLineOf (d : PrintData) : String :=
  if d.store_name_zh ≠ "" ∧ d.store_name_en ≠ "" then
    d.store_name_zh ++ " - " ++ d.store_name_en
  else if d.store_name_zh ≠ "" then d.store_name_zh
  else d.store_name_en

/-- Characters 2–4 of the long order code, else the default store
number. -/
def receiptStoreNumber (order_number : String) : String :=
  if 4 ≤ order_number.length then jsTake (jsDrop order_number 1) 3 else "001"

/-- The totals-row quantity: the passed `total_quantity` if present,
else the sum of the line quantities. -/
def qtyTotalOf (d : PrintData) : Int :=
  match d.total_quantity with
  | some q => q
  | none => (d.items.map (·.quantity)).sum

/-- The full primitive sequence of one receipt, in source order
(lines 574–821 of the printer service). -/
def renderCalls (cfg : PrinterConfig) (d : PrintData) : List Prim :=
  let TE := cfg.textEncoding
  [.align 1]
  ++ (if storeNameLineOf d ≠ "" then
        [.text (storeNameLineOf d) 3 (-2) 9 9 0 0, .feed] else [])
  ++ [.text "***您的號碼(Your number)***" 3 (-2) 7 7 0 0, .feed]
  ++ (match d.daily_sequence with
      | some s =>
        [.text ((if d.order_type = 1 then "T" else "D") ++ padStartC (intStr s) 4 '0')
           TE (-2) 10 10 0 8, .feed]
      | none => [])
  ++ [.align 0, .text SEPARATOR_LINE TE (-1) 9 9 0 0, .feed]
  ++ [.text ("店號(Store No)：" ++ receiptStoreNumber d.order_number) 3 (-1) 9 9 0 0, .feed]
  ++ [.text ("類型(Type)：" ++ (if d.order_type = 1 then "外賣" else "堂食")) 3 (-1) 9 9 0 0, .feed]
  ++ [.text (truncateText ("交易時間(Time): " ++ d.order_time) MAX_LINE_WIDTH) 3 (-1) 9 9 0 0, .feed]
  ++ [.text (truncateText ("交易號(TN): " ++ d.order_number) MAX_LINE_WIDTH) 3 (-1) 9 9 0 0, .feed]
  ++ [.text SEPARATOR_LINE TE (-1) 9 9 0 0, .feed]
  ++ [.text (buildTableRow "品項" "數量" "單價" "小計" false) 3 (-1) 9 9 0 8, .feed]
  ++ [.text (buildTableRow "Item" "Qty" "Unit Price" "Amount" false) TE (-1) 9 9 0 8, .feed]
  ++ (if d.items.isEmpty then [] else
      ((d.items.map (fun it =>
        [Prim.text (buildTableRow (truncateText it.name COL_WIDTH_NAME)
            (intStr it.quantity) it.price it.subtotal false) TE (-1) 9 9 0 0,
         Prim.feed])).flatten ++ [.feed]))
  ++ [.text SEPARATOR_LINE TE (-1) 9 9 0 0, .feed]
  ++ [.text (buildTableRow "合計 Total" (intStr (qtyTotalOf d)) ""
        ("HK$" ++ d.total_amount) false) 3 (-1) 9 9 0 8, .feed]
  ++ [.text SEPARATOR_LINE TE (-1) 9 9 0 0, .feed]
  ++ [.align 0, .feed]
  ++ [.text (buildLabelValueLine "支付類型" (truncateText d.payment_type_zh 20)) 3 (-1) 9 9 0 0, .feed]
  ++ (if truncateText d.payment_type_en 30 ≠ "" then
        [.text (buildLabelValueLine "Payment type" (truncateText d.payment_type_en 30))
           TE (-1) 9 9 0 0, .feed] else [])
  ++ [.text SEPARATOR_LINE TE (-1) 9 9 0 0, .feed]
  ++ [.text (payAmountLine d.total_amount) 3 (-1) 15 15 0 8, .feed]
  ++ [.text SEPARATOR_LINE TE (-1) 9 9 0 0, .feed]
  ++ [.align 1, .feed]
  ++ [.text "感謝您的惠顧" 3 (-2) 9 9 0 0, .feed]
  ++ [.text "Thank You!" TE (-2) 9 9 0 0, .feed]
  ++ [.feedN 4, .cut, .feed]

/-- The device's behaviour during one print attempt: whether the native
DLL is loaded, whether the port handle is already open, whether an
`openPort` attempt would succeed, the status-probe answers (`none` when
the probe itself throws or is skipped), and which DLL call (by index)
throws during dispatch. -/
structure Device where
  dllLoaded : Bool
  handleOpen : Bool
  openOk : Bool
  statusBefore : Option Int
  statusAfter : Option Int
  throwAt : Option (Nat × String)
deriving DecidableEq

structure PrintResult where
  success : Bool
  message : String
deriving DecidableEq

/-- Dispatch the primitive sequence against the device. A throw raised
by `Pos_Text` is caught inside `printText` (which returns `false`), and
a throw from the cut command is caught by its own `try`; both continue.
A throw from a feed or alignment call propagates to the outer catch. -/
def dispatchPrims (thr : Option (Nat × String)) :
    List Prim → Nat → List Prim × Option String
  | [], _ => ([], none)
  | p :: ps, i =>
    let benign : Bool :=
      match p with
      | .text _ _ _ _ _ _ _ => true
      | .cut => true
      | _ => false
    match thr with
    | some (j, m) =>
      if j = i then
        if benign then
          let r := dispatchPrims thr ps (i + 1); (p :: r.1, r.2)
        else ([], some m)
      else
        let r := dispatchPrims thr ps (i + 1); (p :: r.1, r.2)
    | none =>
      let r := dispatchPrims thr ps (i + 1); (p :: r.1, r.2)

def simulatedMessage : String := "模拟打印成功（DLL未加载）"

def hardwareSuccessMessage : String := "打印成功"

/-- The tail of `printOrderReceipt` after dispatch: a propagated
dispatch exception becomes a failure result; otherwise the optional
post-print paper probe can downgrade the success. -/
def finishPrint (cfg : PrinterConfig) (dev : Device) :
    List Prim × Option String → PrintResult × List Prim
  | (prims, some m) => (⟨false, "打印失敗: " ++ m⟩, prims)
  | (prims, none) =>
    if cfg.checkStatus ∧ dev.statusAfter = some (-3) then
      (⟨false, "打印可能不完整：檢測到缺紙，請檢查打印結果"⟩, prims)
    else (⟨true, hardwareSuccessMessage⟩, prims)

/-- `printOrderReceipt(orderData)`: simulated success when the DLL is
not loaded; open the port if needed; optional pre-print status probe
with fault short-circuits; dispatch the receipt; optional post-print
paper probe; all errors converted into a `{success, message}` record.
The ambient `nowMs`/`randSeed` arguments model the clock and randomness
available to the module — the receipt path never reads them. -/
def printOrderReceipt (cfg : PrinterConfig) (dev : Device) (d : PrintData)
    (_nowMs _randSeed : Nat) : PrintResult × List Prim :=
  if ¬ dev.dllLoaded then (⟨true, simulatedMessage⟩, [])
  else if ¬ dev.handleOpen ∧ ¬ dev.openOk then
    (⟨false, "無法打開打印機，請檢查打印機連接"⟩, [])
  else if cfg.checkStatus ∧ dev.statusBefore = some (-3) then
    (⟨false, "打印機缺紙，請添加紙張後重試"⟩, [])
  else if cfg.checkStatus ∧ dev.statusBefore = some (-1) then
    (⟨false, "打印機離線，請檢查打印機連接"⟩, [])
  else if cfg.checkStatus ∧ dev.statusBefore = some (-2) then
    (⟨false, "打印機上蓋打開，請關閉上蓋後重試"⟩, [])
  else finishPrint cfg dev (dispatchPrims dev.throwAt (renderCalls cfg d) 0)

/-! ## Basic lemmas about the string primitives -/

theorem data_mk (l : List Char) : (String.mk l).data = l := rfl

theorem length_data (s : String) : s.length = s.data.length := rfl

theorem getDisplayWidth_append (a b : String) :
    getDisplayWidth (a ++ b) = getDisplayWidth a + getDisplayWidth b := by
  unfold getDisplayWidth
  rw [String.data_append, List.map_append, List.sum_append]

theorem charWidth_space : charWidth ' ' = 1 := by decide

theorem getDisplayWidth_spaces (n : Nat) :
    getDisplayWidth (String.mk (List.replicate n ' ')) = n := by
  unfold getDisplayWidth
  rw [data_mk, List.map_replicate, charWidth_space, List.sum_replicate, smul_eq_mul,
    Nat.mul_one]

/-! ## Claim C7: the alignment helpers pad to the exact display width -/

/-- **C7.** For every string whose display width (CJK code point = 2
units, any other character = 1) is at most the target width, each of
`leftAlign`, `centerAlign` and `rightAlign` returns a string whose
display width equals the target width exactly, with the original text
preserved and the padding consisting of spaces only. -/
theorem alignment_pads_to_exact_width (text : String) (targetWidth : Nat)
    (h : getDisplayWidth text ≤ targetWidth) :
    getDisplayWidth (leftAlign text targetWidth) = targetWidth ∧
    getDisplayWidth (centerAlign text targetWidth) = targetWidth ∧
    getDisplayWidth (rightAlign text targetWidth) = targetWidth ∧
    (leftAlign text targetWidth).data =
      text.data ++ List.replicate (targetWidth - getDisplayWidth text) ' ' ∧
    (centerAlign text targetWidth).data =
      List.replicate ((targetWidth - getDisplayWidth text) / 2) ' ' ++ text.data ++
        List.replicate
          (targetWidth - getDisplayWidth text -
            (targetWidth - getDisplayWidth text) / 2) ' ' ∧
    (rightAlign text targetWidth).data =
      List.replicate (targetWidth - getDisplayWidth text) ' ' ++ text.data := by
  unfold leftAlign centerAlign rightAlign
  refine ⟨?_, ?_, ?_, ?_, ?_, ?_⟩ <;>
    simp [strRepeat, getDisplayWidth_append, getDisplayWidth_spaces,
      String.data_append] <;> omega

/-- Witness for C7 at a concrete mixed CJK/ASCII input. -/
theorem alignment_pads_to_exact_width_witness :
    getDisplayWidth "中A" ≤ 5 ∧ getDisplayWidth (leftAlign "中A" 5) = 5 :=
  ⟨by decide, (alignment_pads_to_exact_width "中A" 5 (by decide)).1⟩

/-! ## Claim C6: receipt truncation is by character count, not display width -/

/-- A 9-character CJK item name, of display width 18. -/
def wideName : String := String.mk (List.replicate 9 '中')

/-- **C6 (counterexample).** The claim says every item name whose
display width exceeds 16 units is truncated to at most 16 units.
`truncateText` compares the character count (`str.length`), so a
9-character CJK name of display width 18 passes through untruncated
and the rendered name column content still has display width 18. -/
theorem truncateText_display_width_counterexample :
    getDisplayWidth wideName = 18 ∧
    truncateText wideName COL_WIDTH_NAME = wideName ∧
    COL_WIDTH_NAME < getDisplayWidth (truncateText wideName COL_WIDTH_NAME) := by
  decide

/-- **C6 (amended).** Truncation is measured in UTF-16 characters, not
display-width units: a string longer than the budget is cut to
`budget - 1` characters plus an ellipsis, so the character count of
every truncated output is within the budget (16 for item names, 48 for
the time and transaction-number lines), while the display width may
reach up to twice the budget for CJK-heavy text. -/
theorem truncateText_char_budget (text : String) (maxWidth : Nat)
    (h : 1 ≤ maxWidth) :
    (truncateText text maxWidth).length ≤ maxWidth ∧
    (text.length ≤ maxWidth → truncateText text maxWidth = text) ∧
    (maxWidth < text.length →
      truncateText text maxWidth = jsTake text (maxWidth - 1) ++ "…") ∧
    (truncateText text COL_WIDTH_NAME).length ≤ COL_WIDTH_NAME ∧
    (truncateText text MAX_LINE_WIDTH).length ≤ MAX_LINE_WIDTH := by
  have key : ∀ w : Nat, 1 ≤ w → (truncateText text w).length ≤ w := by
    intro w hw
    unfold truncateText jsTake
    split
    · next hlt =>
      rw [String.length, String.data_append, List.length_append, data_mk,
        List.length_take]
      simp only [List.length_cons, List.length_nil]
      omega
    · next hge => omega
  refine ⟨key maxWidth h, ?_, ?_, key COL_WIDTH_NAME (by decide),
    key MAX_LINE_WIDTH (by decide)⟩
  · intro hle
    unfold truncateText
    rw [if_neg (by omega)]
  · intro hlt
    unfold truncateText
    rw [if_pos hlt]

/-- Witness for the amended C6 at a concrete long name. -/
theorem truncateText_char_budget_witness :
    (truncateText "Grilled chicken with rice" 16).length ≤ 16 :=
  (truncateText_char_budget "Grilled chicken with rice" 16 (by decide)).2.2.2.1

/-! ## Claims C8 and C9: the print driver adapter and render determinism -/

theorem dispatchPrims_none (l : List Prim) (i : Nat) :
    dispatchPrims none l i = (l, none) := by
  induction l generalizing i with
  | nil => rfl
  | cons p ps ih => simp [dispatchPrims, ih]

/-- On a non-faulting device the emitted primitives are exactly
`renderCalls`. -/
theorem printOrderReceipt_ok_prims (cfg : PrinterConfig) (dev : Device)
    (d : PrintData) (nowMs seed : Nat)
    (h1 : dev.dllLoaded = true)
    (h2 : dev.handleOpen = true ∨ dev.openOk = true)
    (h3 : cfg.checkStatus = true →
      dev.statusBefore ≠ some (-3) ∧ dev.statusBefore ≠ some (-1) ∧
        dev.statusBefore ≠ some (-2))
    (h4 : dev.throwAt = none) :
    (printOrderReceipt cfg dev d nowMs seed).2 = renderCalls cfg d := by
  have hport : ¬ (¬ dev.handleOpen ∧ ¬ dev.openOk) := by
    rcases h2 with h | h <;> simp [h]
  have hs3 : ¬ (cfg.checkStatus ∧ dev.statusBefore = some (-3)) :=
    fun h => (h3 h.1).1 h.2
  have hs1 : ¬ (cfg.checkStatus ∧ dev.statusBefore = some (-1)) :=
    fun h => (h3 h.1).2.1 h.2
  have hs2 : ¬ (cfg.checkStatus ∧ dev.statusBefore = some (-2)) :=
    fun h => (h3 h.1).2.2 h.2
  unfold printOrderReceipt
  rw [h4, dispatchPrims_none]
  rw [if_neg (by simp [h1]), if_neg hport, if_neg hs3, if_neg hs1, if_neg hs2]
  simp only [finishPrint]
  split <;> rfl

/-- **C9.** Receipt rendering is deterministic: two runs with identical
order data and printer configuration — regardless of the device's
port/handle state, probe answers, the clock or the random seed —
produce the same primitive sequence (text content, encoding, alignment,
size scale and style flags), namely the pure `renderCalls cfg d`. -/
theorem renderer_deterministic (cfg : PrinterConfig) (d : PrintData)
    (dev1 dev2 : Device) (nowMs1 seed1 nowMs2 seed2 : Nat)
    (h1 : dev1.dllLoaded = true) (h1b : dev2.dllLoaded = true)
    (h2 : dev1.handleOpen = true ∨ dev1.openOk = true)
    (h2b : dev2.handleOpen = true ∨ dev2.openOk = true)
    (h3 : cfg.checkStatus = true →
      dev1.statusBefore ≠ some (-3) ∧ dev1.statusBefore ≠ some (-1) ∧
        dev1.statusBefore ≠ some (-2))
    (h3b : cfg.checkStatus = true →
      dev2.statusBefore ≠ some (-3) ∧ dev2.statusBefore ≠ some (-1) ∧
        dev2.statusBefore ≠ some (-2))
    (h4 : dev1.throwAt = none) (h4b : dev2.throwAt = none) :
    (printOrderReceipt cfg dev1 d nowMs1 seed1).2 =
      (printOrderReceipt cfg dev2 d nowMs2 seed2).2 ∧
    (printOrderReceipt cfg dev1 d nowMs1 seed1).2 = renderCalls cfg d := by
  have e1 := printOrderReceipt_ok_prims cfg dev1 d nowMs1 seed1 h1 h2 h3 h4
  have e2 := printOrderReceipt_ok_prims cfg dev2 d nowMs2 seed2 h1b h2b h3b h4b
  exact ⟨e1.trans e2.symm, e1⟩

/-- A sample print payload. -/
def demoPrintData : PrintData :=
  ⟨"D00120250929120039090004", some 4, 0, [⟨"可樂", 2, "12", "24"⟩], "24",
    some 2, "2025-09-29 12:00:39", "測試店", "Test Store", "現金", "Cash"⟩

def demoCfg : PrinterConfig := ⟨1, true⟩

/-- A device whose handle is already open. -/
def devHandleOpen : Device := ⟨true, true, false, some 1, some 1, none⟩

/-- A device whose handle is closed but whose port opens on demand and
whose pre-probe throws. -/
def devHandleClosed : Device := ⟨true, false, true, none, none, none⟩

/-- Witness for C9: two runs on devices in different states, at
different clock readings and random seeds, emit identical primitives. -/
theorem renderer_deterministic_witness :
    (printOrderReceipt demoCfg devHandleOpen demoPrintData 5 6).2 =
      (printOrderReceipt demoCfg devHandleClosed demoPrintData 7 8).2 :=
  (renderer_deterministic demoCfg demoPrintData devHandleOpen devHandleClosed
    5 6 7 8 rfl rfl (Or.inl rfl) (Or.inr rfl) (by decide) (by decide) rfl rfl).1

theorem finishPrint_success (cfg : PrinterConfig) (dev : Device)
    (pr : List Prim × Option String)
    (h : (finishPrint cfg dev pr).1.success = true) :
    (finishPrint cfg dev pr).1.message = hardwareSuccessMessage := by
  rcases pr with ⟨l, e⟩
  cases e with
  | some m => simp [finishPrint] at h
  | none =>
    by_cases hc : cfg.checkStatus ∧ dev.statusAfter = some (-3)
    · simp only [finishPrint] at h
      rw [if_pos hc] at h
      simp at h
    · simp only [finishPrint]
      rw [if_neg hc]

/-- **C8.** `printOrderReceipt` always returns a `{success, message}`
record (it is a total function into `PrintResult`): a run can report
success only with the hardware or the simulated success message; a
missing DLL short-circuits to the simulated success, whose message
differs from the hardware success message; a port-open failure, a
detected pre-print fault and a dispatch exception each yield
`{success := false}` with the corresponding message. -/
theorem printOrderReceipt_error_handling (cfg : PrinterConfig) (dev : Device)
    (d : PrintData) (nowMs seed : Nat) :
    ((printOrderReceipt cfg dev d nowMs seed).1.success = true →
      (printOrderReceipt cfg dev d nowMs seed).1.message = hardwareSuccessMessage ∨
      (printOrderReceipt cfg dev d nowMs seed).1.message = simulatedMessage) ∧
    (dev.dllLoaded = false →
      printOrderReceipt cfg dev d nowMs seed = (⟨true, simulatedMessage⟩, [])) ∧
    simulatedMessage ≠ hardwareSuccessMessage ∧
    (dev.dllLoaded = true → dev.handleOpen = false → dev.openOk = false →
      (printOrderReceipt cfg dev d nowMs seed).1 =
        ⟨false, "無法打開打印機，請檢查打印機連接"⟩) ∧
    (dev.dllLoaded = true → (dev.handleOpen = true ∨ dev.openOk = true) →
      cfg.checkStatus = true → dev.statusBefore = some (-3) →
      (printOrderReceipt cfg dev d nowMs seed).1 =
        ⟨false, "打印機缺紙，請添加紙張後重試"⟩) ∧
    (∀ tr m, dev.dllLoaded = true → (dev.handleOpen = true ∨ dev.openOk = true) →
      (cfg.checkStatus = true →
        dev.statusBefore ≠ some (-3) ∧ dev.statusBefore ≠ some (-1) ∧
          dev.statusBefore ≠ some (-2)) →
      dispatchPrims dev.throwAt (renderCalls cfg d) 0 = (tr, some m) →
      (printOrderReceipt cfg dev d nowMs seed).1 = ⟨false, "打印失敗: " ++ m⟩) := by
  refine ⟨?_, ?_, by decide, ?_, ?_, ?_⟩
  · unfold printOrderReceipt
    split
    · intro _
      exact Or.inr rfl
    · split
      · intro h
        simp at h
      · split
        · intro h
          simp at h
        · split
          · intro h
            simp at h
          · split
            · intro h
              simp at h
            · intro h
              exact Or.inl (finishPrint_success _ _ _ h)
  · intro h
    unfold printOrderReceipt
    simp [h]
  · intro ha hb hc
    unfold printOrderReceipt
    simp [ha, hb, hc]
  · intro ha hor hb hc
    have hport : ¬ (¬ dev.handleOpen ∧ ¬ dev.openOk) := by
      rcases hor with h | h <;> simp [h]
    unfold printOrderReceipt
    rw [if_neg (by simp [ha]), if_neg hport, if_pos ⟨by simp [hb], hc⟩]
  · intro tr m ha hor h3 hd
    have hport : ¬ (¬ dev.handleOpen ∧ ¬ dev.openOk) := by
      rcases hor with h | h <;> simp [h]
    have hs3 : ¬ (cfg.checkStatus ∧ dev.statusBefore = some (-3)) :=
      fun h => (h3 h.1).1 h.2
    have hs1 : ¬ (cfg.checkStatus ∧ dev.statusBefore = some (-1)) :=
      fun h => (h3 h.1).2.1 h.2
    have hs2 : ¬ (cfg.checkStatus ∧ dev.statusBefore = some (-2)) :=
      fun h => (h3 h.1).2.2 h.2
    unfold printOrderReceipt
    rw [if_neg (by simp [ha]), if_neg hport, if_neg hs3, if_neg hs1, if_neg hs2, hd]
    rfl

/-- A device with the native DLL missing. -/
def devNoDll : Device := ⟨false, false, false, none, none, none⟩

/-- Witness for C8: with the DLL not loaded the result is the simulated
success, with its distinguishing message. -/
theorem printOrderReceipt_error_handling_witness :
    printOrderReceipt demoCfg devNoDll demoPrintData 0 0 =
      (⟨true, simulatedMessage⟩, []) :=
  (printOrderReceipt_error_handling demoCfg devNoDll demoPrintData 0 0).2.1 rfl

/-! ## Lemmas about the settings operations -/

theorem findOneS_fail (fo : FailOracle) (st : SettingsStore) (k : String)
    (h : k ∈ fo.failKeys) : findOneS fo st k = .error "settings read failed" := by
  unfold findOneS
  rw [if_pos h]

theorem findOneS_pass (fo : FailOracle) (st : SettingsStore) (k : String)
    (h : k ∉ fo.failKeys) :
    findOneS fo st k = .ok (st.find? (fun r => r.key == k)) := by
  unfold findOneS
  rw [if_neg h]

theorem updateFirstE_pass (fo : FailOracle) (st : SettingsStore) (k : String)
    (v : JVal) (h : k ∉ fo.failKeys) :
    updateFirstE fo st k v = .ok (updateFirstL st k v) := by
  unfold updateFirstE
  rw [if_neg h]

theorem createE_pass (fo : FailOracle) (st : SettingsStore) (k : String)
    (v : JVal) (h : k ∉ fo.failKeys) :
    createE fo st k v = .ok (st ++ [⟨k, v⟩]) := by
  unfold createE
  rw [if_neg h]

/-- Reading the `store_number` setting never throws when the key is not
failing: every parse outcome is handled inside the function. -/
theorem storeNumberOf_ok (fo : FailOracle) (storeId : Nat) (st : SettingsStore)
    (h : "store_number" ∉ fo.failKeys) :
    ∃ sn, storeNumberOf fo storeId st = .ok sn := by
  unfold storeNumberOf
  rw [findOneS_pass fo st _ h]
  cases hf : st.find? (fun r => r.key == "store_number") with
  | none => exact ⟨_, rfl⟩
  | some row =>
    rcases row with ⟨k, v⟩
    cases v with
    | jint n => exact ⟨_, rfl⟩
    | jstr s => exact ⟨_, rfl⟩
    | jbad => exact ⟨_, rfl⟩

/-- Updating one key leaves `findOne` on a different key unchanged. -/
theorem find?_updateFirstL_ne (st : SettingsStore) (k k2 : String) (v : JVal)
    (h : ¬ (k == k2)) :
    (updateFirstL st k v).find? (fun r => r.key == k2) =
      st.find? (fun r => r.key == k2) := by
  induction st with
  | nil => rfl
  | cons r rs ih =>
    by_cases hk : r.key == k
    · have hrk : r.key = k := by simpa using hk
      have hne : ¬ ((fun r : SettingRow => r.key == k2) r) := by
        simpa [hrk] using h
      simp only [updateFirstL, if_pos hk]
      rw [List.find?_cons_of_neg (p := fun r : SettingRow => r.key == k2) _ (by simpa [hrk] using h),
        List.find?_cons_of_neg (p := fun r : SettingRow => r.key == k2) _ hne]
    · simp only [updateFirstL, if_neg hk]
      by_cases h2 : r.key == k2
      · rw [List.find?_cons_of_pos (p := fun r : SettingRow => r.key == k2) _ h2,
          List.find?_cons_of_pos (p := fun r : SettingRow => r.key == k2) _ h2]
      · rw [List.find?_cons_of_neg (p := fun r : SettingRow => r.key == k2) _ h2,
          List.find?_cons_of_neg (p := fun r : SettingRow => r.key == k2) _ h2]
        exact ih

/-- Updating the key that `findOne` resolves to a row updates exactly
that row's value. -/
theorem find?_updateFirstL_eq (st : SettingsStore) (k : String) (v : JVal)
    (row : SettingRow)
    (h : st.find? (fun r => r.key == k) = some row) :
    (updateFirstL st k v).find? (fun r => r.key == k) =
      some { row with value := v } := by
  induction st with
  | nil => simp at h
  | cons r rs ih =>
    by_cases hk : r.key == k
    · rw [List.find?_cons_of_pos (p := fun r : SettingRow => r.key == k) _ hk] at h
      obtain rfl := Option.some.inj h
      simp only [updateFirstL, if_pos hk]
      exact List.find?_cons_of_pos (p := fun r : SettingRow => r.key == k) _ (by simpa using hk)
    · rw [List.find?_cons_of_neg (p := fun r : SettingRow => r.key == k) _ hk] at h
      simp only [updateFirstL, if_neg hk]
      rw [List.find?_cons_of_neg (p := fun r : SettingRow => r.key == k) _ hk]
      exact ih h

/-! ## Claim C1: counter errors do not abort the transaction -/

/-- **C1 (amended).** A read error on the daily-counter key during an
allocation does not raise: `generateOrderNumber` catches it and returns
the timestamp-derived fallback (`'OF' + last 8 digits of Date.now()`,
`dailySequence = 0`), leaving the settings untouched; the enclosing
transaction is not aborted (see the counterexample for the transaction
actually committing an order with the fallback code). -/
theorem counter_error_returns_fallback (env : Env) (orderType storeId : Nat)
    (st : SettingsStore)
    (h1 : sequenceKeyOf orderType ∈ env.fo.failKeys)
    (h2 : "store_number" ∉ env.fo.failKeys) :
    generateOrderNumber env orderType storeId st =
      (fallbackResult env.nowMs, st) := by
  obtain ⟨sn, hsn⟩ := storeNumberOf_ok env.fo storeId st h2
  unfold generateOrderNumber genBody
  rw [hsn]
  dsimp only
  rw [findOneS_fail _ _ _ h1]


/-- The 2025-09-29 12:00:39 environment with a failing read/write on
the dine-in counter key. -/
def counterFailEnv : Env :=
  ⟨⟨2025, 9, 29, 12, 0, 39⟩, 1759147239123, 9, ⟨["daily_dine_in_sequence"], false, []⟩⟩

/-- A counter store already on today's date with dine-in counter 3. -/
def demoStore : SettingsStore :=
  [⟨"daily_sequence_date", .jstr "20250929"⟩, ⟨"daily_dine_in_sequence", .jint 3⟩]

/-- Witness for the amended C1 at a concrete store and environment. -/
theorem counter_error_returns_fallback_witness :
    generateOrderNumber counterFailEnv 0 1 demoStore =
      (fallbackResult counterFailEnv.nowMs, demoStore) :=
  counter_error_returns_fallback counterFailEnv 0 1 demoStore (by decide) (by decide)

/-- A database with two active meals, one active payment method and
today's counter state. -/
def demoDb : DB := ⟨[⟨5, true⟩, ⟨6, true⟩], [⟨1, true⟩], demoStore, [], [], 1⟩

/-- A one-line dine-in order for meal 5. -/
def demoInput : CreateInput := ⟨[⟨5, 2, 12⟩], 24, 1, 0, none⟩

/-- **C1 (counterexample).** The claim says the timestamp fallback code
is never returned from an allocation executed inside a transaction and
that a counter error aborts the enclosing transaction. In this run the
dine-in counter read fails inside `createOrder`'s transaction, yet the
call succeeds and returns the fallback code `OF47239123` — the fallback
is returned from inside the transaction and nothing is aborted. -/
theorem fallback_code_returned_inside_transaction :
    (createOrder counterFailEnv demoInput demoDb).txOpened = true ∧
    (createOrder counterFailEnv demoInput demoDb).result =
      .ok ⟨"订单创建成功，正在打印小票...", "OF47239123"⟩ ∧
    "OF47239123" = (fallbackResult counterFailEnv.nowMs).orderNumber := by decide

/-! ## Claim C2: the day-rollover reset misses the second order kind -/

/-- The counter store at close of business on 2025-01-01: dine-in
counter 3, takeout counter 5, shared date key `20250101`. -/
def rolloverStore : SettingsStore :=
  [⟨"daily_sequence_date", .jstr "20250101"⟩,
   ⟨"daily_dine_in_sequence", .jint 3⟩,
   ⟨"daily_takeout_sequence", .jint 5⟩]

/-- The next morning (2025-01-02). -/
def rolloverEnv : Env := ⟨⟨2025, 1, 2, 9, 5, 7⟩, 1735808707000, 42, noFail⟩

/-- **C2 (code bug).** The first allocation of the new day (dine-in)
resets its counter and — crucially — advances the single shared
`daily_sequence_date` key. The first takeout allocation of the new day
then sees a matching date and increments yesterday's takeout counter
instead of resetting it: it returns 6, not 1. -/
theorem rollover_resets_only_first_kind :
    (generateOrderNumber rolloverEnv 0 1 rolloverStore).1.dailySequence = 1 ∧
    (generateOrderNumber rolloverEnv 1 1
        (generateOrderNumber rolloverEnv 0 1 rolloverStore).2).1.dailySequence = 6 := by
  decide

/-! ## Claim C3: same-day allocations increment by exactly one -/

/-- The success path of one same-day allocation: with no failing
operations, the stored date equal to today and the kind's counter
holding the integer `n`, the allocator returns `n + 1` and persists
`n + 1` into the counter row. -/
theorem generateOrderNumber_same_day_step (env : Env) (orderType storeId : Nat)
    (st : SettingsStore) (n : Int)
    (hfo : env.fo = noFail)
    (hdate : st.find? (fun r => r.key == dateKey) =
      some ⟨dateKey, .jstr (dateStrOf env.now)⟩)
    (hseq : st.find? (fun r => r.key == sequenceKeyOf orderType) =
      some ⟨sequenceKeyOf orderType, .jint n⟩) :
    (generateOrderNumber env orderType storeId st).1.dailySequence = n + 1 ∧
    (generateOrderNumber env orderType storeId st).2 =
      updateFirstL st (sequenceKeyOf orderType) (.jint (n + 1)) := by
  have hnk : ∀ k : String, k ∉ (noFail).failKeys := by
    intro k hk
    simp [noFail] at hk
  obtain ⟨sn, hsn⟩ := storeNumberOf_ok env.fo storeId st (hfo ▸ hnk _)
  unfold generateOrderNumber genBody
  rw [hsn]
  dsimp only
  rw [hfo, findOneS_pass _ _ _ (hnk _), findOneS_pass _ _ _ (hnk _), hseq, hdate]
  have hm : dateMatches (some ⟨dateKey, .jstr (dateStrOf env.now)⟩)
      (dateStrOf env.now) = true := by
    simp [dateMatches]
  dsimp only
  rw [hm]
  dsimp only [parseIntJV, jsOrInt, Option.getD]
  rw [updateFirstE_pass _ _ _ _ (hnk _)]
  exact ⟨rfl, rfl⟩

/-- `k` successive allocations, collecting the returned
`dailySequence` values. -/
def runAllocs (env : Env) (orderType storeId : Nat) :
    Nat → SettingsStore → List Int × SettingsStore
  | 0, st => ([], st)
  | k + 1, st =>
    let r := generateOrderNumber env orderType storeId st
    let rest := runAllocs env orderType storeId k r.2
    (r.1.dailySequence :: rest.1, rest.2)

/-- **C3.** On a well-formed counter store (stored date equal to today,
kind counter holding integer `n`) with no store failures, `k`
successive same-day allocations of the same kind return exactly
`n + 1, n + 2, ..., n + k`: strictly increasing by one, no gaps, no
repeats; each allocation reads the stored counter, adds one, persists
and returns it. -/
theorem same_day_sequences_strictly_increase (env : Env)
    (orderType storeId : Nat) (st : SettingsStore) (n : Int) (k : Nat)
    (hfo : env.fo = noFail)
    (hdate : st.find? (fun r => r.key == dateKey) =
      some ⟨dateKey, .jstr (dateStrOf env.now)⟩)
    (hseq : st.find? (fun r => r.key == sequenceKeyOf orderType) =
      some ⟨sequenceKeyOf orderType, .jint n⟩) :
    (runAllocs env orderType storeId k st).1 =
      (List.range k).map (fun i : Nat => n + 1 + (i : Int)) := by
  induction k generalizing st n with
  | zero => rfl
  | succ k ih =>
    have hkeys : ¬ (sequenceKeyOf orderType == dateKey) := by
      unfold sequenceKeyOf dateKey
      split <;> decide
    have step := generateOrderNumber_same_day_step env orderType storeId st n
      hfo hdate hseq
    have hdate2 : (updateFirstL st (sequenceKeyOf orderType)
        (.jint (n + 1))).find? (fun r => r.key == dateKey) =
        some ⟨dateKey, .jstr (dateStrOf env.now)⟩ := by
      rw [find?_updateFirstL_ne _ _ _ _ hkeys]
      exact hdate
    have hseq2 : (updateFirstL st (sequenceKeyOf orderType)
        (.jint (n + 1))).find? (fun r => r.key == sequenceKeyOf orderType) =
        some ⟨sequenceKeyOf orderType, .jint (n + 1)⟩ :=
      find?_updateFirstL_eq st _ _ _ hseq
    unfold runAllocs
    dsimp only
    rw [step.1, step.2, ih _ _ hdate2 hseq2, List.range_succ_eq_map,
      List.map_cons, List.map_map]
    congr 1
    · push_cast
      ring
    · apply List.map_congr_left
      intro a ha
      simp only [Function.comp]
      push_cast
      ring

/-- Witness for C3: three allocations from counter 3 return 4, 5, 6. -/
def allocEnv : Env := ⟨⟨2025, 9, 29, 12, 0, 39⟩, 1759147239123, 9, noFail⟩

theorem same_day_sequences_strictly_increase_witness :
    (runAllocs allocEnv 0 1 3 demoStore).1 =
      (List.range 3).map (fun i : Nat => (3 : Int) + 1 + (i : Int)) :=
  same_day_sequences_strictly_increase allocEnv 0 1 demoStore 3 3 rfl
    (by decide) (by decide)

/-! ## Digit and length lemmas for the rendered number fields -/

theorem digitChar_isDigit (d : Nat) : (digitChar d).isDigit = true := by
  unfold digitChar
  split <;> decide

theorem natDigits_all_digits (fuel : Nat) :
    ∀ n : Nat, ∀ c ∈ natDigits fuel n, c.isDigit = true := by
  induction fuel with
  | zero =>
    intro n c hc
    simp [natDigits] at hc
  | succ fuel ih =>
    intro n c hc
    unfold natDigits at hc
    split at hc
    · rw [List.mem_singleton] at hc
      subst hc
      exact digitChar_isDigit n
    · rw [List.mem_append] at hc
      rcases hc with hc | hc
      · exact ih _ _ hc
      · rw [List.mem_singleton] at hc
        subst hc
        exact digitChar_isDigit _

theorem natDigits_length_pos (fuel n : Nat) (h : n < fuel) :
    1 ≤ (natDigits fuel n).length := by
  cases fuel with
  | zero => omega
  | succ fuel =>
    unfold natDigits
    split
    · simp
    · simp

theorem natDigits_length_le (fuel : Nat) :
    ∀ n k : Nat, n < fuel → 1 ≤ k → n < 10 ^ k →
      (natDigits fuel n).length ≤ k := by
  induction fuel with
  | zero => omega
  | succ fuel ih =>
    intro n k hf hk hb
    unfold natDigits
    split
    · simpa using hk
    · next hge =>
      rw [List.length_append, List.length_singleton]
      have hk2 : 2 ≤ k := by
        by_contra hlt
        have : k = 1 := by omega
        subst this
        simp at hb
        omega
      have hdivfuel : n / 10 < fuel := by omega
      have hdivb : n / 10 < 10 ^ (k - 1) := by
        apply Nat.div_lt_of_lt_mul
        have hp : 10 ^ (k - 1) * 10 = 10 ^ k := by
          rw [← Nat.pow_succ]
          congr 1
          omega
        omega
      have := ih (n / 10) (k - 1) hdivfuel (by omega) hdivb
      omega

theorem natDigits_length_ge (fuel : Nat) :
    ∀ n k : Nat, n < fuel → 10 ^ k ≤ n →
      k + 1 ≤ (natDigits fuel n).length := by
  induction fuel with
  | zero => omega
  | succ fuel ih =>
    intro n k hf hb
    unfold natDigits
    split
    · next hlt =>
      have hk : k = 0 := by
        by_contra hk0
        have h10 : 10 ≤ 10 ^ k := by
          calc 10 = 10 ^ 1 := by norm_num
          _ ≤ 10 ^ k := Nat.pow_le_pow_right (by norm_num) (by omega)
        omega
      subst hk
      simp
    · next hge =>
      rw [List.length_append, List.length_singleton]
      push_neg at hge
      cases k with
      | zero =>
        have := natDigits_length_pos fuel (n / 10) (by omega)
        omega
      | succ k2 =>
        have hdivfuel : n / 10 < fuel := by omega
        have hdivb : 10 ^ k2 ≤ n / 10 := by
          rw [Nat.le_div_iff_mul_le (by norm_num)]
          calc 10 ^ k2 * 10 = 10 ^ (k2 + 1) := by rw [Nat.pow_succ]
          _ ≤ n := hb
        have := ih (n / 10) k2 hdivfuel hdivb
        omega

theorem natStr_all_digits (n : Nat) : ∀ c ∈ (natStr n).data, c.isDigit = true :=
  natDigits_all_digits (n + 1) n

theorem natStr_length_le (n k : Nat) (hk : 1 ≤ k) (h : n < 10 ^ k) :
    (natStr n).length ≤ k :=
  natDigits_length_le (n + 1) n k (by omega) hk h

theorem natStr_length_ge (n k : Nat) (h : 10 ^ k ≤ n) :
    k + 1 ≤ (natStr n).length :=
  natDigits_length_ge (n + 1) n k (by omega) h

theorem natStr_length_pos (n : Nat) : 1 ≤ (natStr n).length :=
  natDigits_length_pos (n + 1) n (by omega)

theorem intStr_nonneg (i : Int) (h : 0 ≤ i) : intStr i = natStr i.toNat := by
  unfold intStr
  rw [if_neg (by omega)]

theorem padStartC_length (s : String) (n : Nat) (c : Char) :
    (padStartC s n c).length = max n s.length := by
  unfold padStartC
  split
  · omega
  · rw [length_data, data_mk, List.length_append, List.length_replicate]
    rw [length_data] at *
    omega

theorem padStartC_digits (s : String) (n : Nat)
    (hs : ∀ c ∈ s.data, c.isDigit = true) :
    ∀ c ∈ (padStartC s n '0').data, c.isDigit = true := by
  unfold padStartC
  split
  · exact hs
  · intro c hc
    rw [data_mk, List.mem_append] at hc
    rcases hc with hc | hc
    · rw [List.eq_of_mem_replicate hc]
      decide
    · exact hs c hc

theorem jsTake_length (s : String) (n : Nat) :
    (jsTake s n).length = min n s.length := by
  unfold jsTake
  rw [length_data, data_mk, List.length_take, length_data]

theorem jsTake_digits (s : String) (n : Nat)
    (hs : ∀ c ∈ s.data, c.isDigit = true) :
    ∀ c ∈ (jsTake s n).data, c.isDigit = true := by
  intro c hc
  rw [data_mk] at hc
  exact hs c (List.mem_of_mem_take hc)

theorem pad2_length (m : Nat) (h : m ≤ 99) : (pad2 m).length = 2 := by
  unfold pad2
  rw [padStartC_length]
  have := natStr_length_le m 2 (by omega) (by omega)
  have := natStr_length_pos m
  omega

theorem pad2_digits (m : Nat) : ∀ c ∈ (pad2 m).data, c.isDigit = true :=
  padStartC_digits _ _ (natStr_all_digits m)

/-! ## Claim C4: the shape of the composed long-form order code -/

/-- The allocator's success path with a numeric `store_number` setting:
the store-number field is `String(sn).padStart(3, '0').slice(0, 3)`. -/
theorem storeNumberOf_jint (fo : FailOracle) (storeId : Nat)
    (st : SettingsStore) (sn : Int)
    (hnf : "store_number" ∉ fo.failKeys)
    (hsn : st.find? (fun r => r.key == "store_number") =
      some ⟨"store_number", .jint sn⟩) :
    storeNumberOf fo storeId st = .ok (jsTake (padStartC (intStr sn) 3 '0') 3) := by
  unfold storeNumberOf
  rw [findOneS_pass _ _ _ hnf, hsn]
  rfl

/-- The full order code produced by a same-day success-path
allocation. -/
theorem generateOrderNumber_code_formula (env : Env) (orderType storeId : Nat)
    (st : SettingsStore) (sn n : Int)
    (hfo : env.fo = noFail)
    (hsn : st.find? (fun r => r.key == "store_number") =
      some ⟨"store_number", .jint sn⟩)
    (hdate : st.find? (fun r => r.key == dateKey) =
      some ⟨dateKey, .jstr (dateStrOf env.now)⟩)
    (hseq : st.find? (fun r => r.key == sequenceKeyOf orderType) =
      some ⟨sequenceKeyOf orderType, .jint n⟩) :
    (generateOrderNumber env orderType storeId st).1 =
      ⟨(if orderType = 1 then "T" else "D") ++
        jsTake (padStartC (intStr sn) 3 '0') 3 ++ dateStrOf env.now ++
        timeStrOf env.now ++ pad2 env.rand ++ padStartC (intStr (n + 1)) 4 '0',
        n + 1⟩ := by
  have hnk : ∀ k : String, k ∉ (noFail).failKeys := by
    intro k hk
    simp [noFail] at hk
  have hsn2 := storeNumberOf_jint env.fo storeId st sn (hfo ▸ hnk _) hsn
  unfold generateOrderNumber genBody
  rw [hsn2]
  dsimp only
  rw [hfo, findOneS_pass _ _ _ (hnk _), findOneS_pass _ _ _ (hnk _), hseq, hdate]
  have hm : dateMatches (some ⟨dateKey, .jstr (dateStrOf env.now)⟩)
      (dateStrOf env.now) = true := by
    simp [dateMatches]
  dsimp only
  rw [hm]
  dsimp only [parseIntJV, jsOrInt, Option.getD]
  rw [updateFirstE_pass _ _ _ _ (hnk _)]
  rfl


theorem strLength_append (a b : String) :
    (a ++ b).length = a.length + b.length := by
  rw [length_data, length_data, length_data, String.data_append, List.length_append]

theorem dateStrOf_digits (d : DateTime) :
    ∀ c ∈ (dateStrOf d).data, c.isDigit = true := by
  intro c hc
  unfold dateStrOf at hc
  rw [String.data_append, String.data_append, List.mem_append, List.mem_append] at hc
  rcases hc with (hc | hc) | hc
  · exact natStr_all_digits _ c hc
  · exact pad2_digits _ c hc
  · exact pad2_digits _ c hc

theorem timeStrOf_digits (d : DateTime) :
    ∀ c ∈ (timeStrOf d).data, c.isDigit = true := by
  intro c hc
  unfold timeStrOf at hc
  rw [String.data_append, String.data_append, List.mem_append, List.mem_append] at hc
  rcases hc with (hc | hc) | hc
  · exact pad2_digits _ c hc
  · exact pad2_digits _ c hc
  · exact pad2_digits _ c hc

theorem dateStrOf_length (d : DateTime) (hy1 : 1000 ≤ d.year)
    (hy2 : d.year ≤ 9999) (hmo : d.month ≤ 12) (hdy : d.day ≤ 31) :
    (dateStrOf d).length = 8 := by
  unfold dateStrOf
  rw [strLength_append, strLength_append]
  have h1 := natStr_length_ge d.year 3 (by omega)
  have h2 := natStr_length_le d.year 4 (by omega) (by omega)
  have h3 := pad2_length d.month (by omega)
  have h4 := pad2_length d.day (by omega)
  omega

theorem timeStrOf_length (d : DateTime) (hh : d.hour ≤ 23)
    (hmi : d.minute ≤ 59) (hse : d.second ≤ 59) :
    (timeStrOf d).length = 6 := by
  unfold timeStrOf
  rw [strLength_append, strLength_append]
  have h1 := pad2_length d.hour (by omega)
  have h2 := pad2_length d.minute (by omega)
  have h3 := pad2_length d.second (by omega)
  omega

/-- Under a working counter store (no failing settings operation) and a
`store_number` setting holding the integer `sn`, every allocation —
whatever the date and counter rows contain — succeeds without the
fallback and composes letter + store field + date + time + random +
`String(dailySequence).padStart(4, '0')`, for some returned sequence
value and final store state. -/
theorem genBody_success_shape (env : Env) (orderType storeId : Nat)
    (st : SettingsStore) (sn : Int)
    (hfo : env.fo = noFail)
    (hsn : st.find? (fun r => r.key == "store_number") =
      some ⟨"store_number", .jint sn⟩) :
    ∃ v st2, genBody env orderType storeId st =
      (.ok ⟨(if orderType = 1 then "T" else "D") ++
        jsTake (padStartC (intStr sn) 3 '0') 3 ++ dateStrOf env.now ++
        timeStrOf env.now ++ pad2 env.rand ++ padStartC (intStr v) 4 '0',
        v⟩, st2) := by
  have hnk : ∀ k : String, k ∉ (noFail).failKeys := by
    intro k hk
    simp [noFail] at hk
  have hsn2 := storeNumberOf_jint env.fo storeId st sn (hfo ▸ hnk _) hsn
  unfold genBody
  rw [hsn2, hfo]
  dsimp only
  rw [findOneS_pass _ _ _ (hnk _), findOneS_pass _ _ _ (hnk _)]
  dsimp only
  repeat' split
  all_goals try exact ⟨_, _, rfl⟩
  all_goals simp [updateFirstE, createE, noFail] at *
  all_goals
    try (rcases hfind : List.find? (fun r => r.key == dateKey) st with _ | _ <;>
      simp_all)
  all_goals
    try (rcases hfind : List.find? (fun r => r.key == sequenceKeyOf orderType) st with
      _ | _ <;> simp_all)
  all_goals
    rcases hfind : List.find? (fun r => r.key == sequenceKeyOf 1) st with _ | _ <;>
      simp_all

/-- The composed code always embeds the returned `dailySequence` as its
final zero-padded field. -/
theorem generateOrderNumber_shape (env : Env) (orderType storeId : Nat)
    (st : SettingsStore) (sn : Int)
    (hfo : env.fo = noFail)
    (hsn : st.find? (fun r => r.key == "store_number") =
      some ⟨"store_number", .jint sn⟩) :
    (generateOrderNumber env orderType storeId st).1.orderNumber =
      (if orderType = 1 then "T" else "D") ++
      jsTake (padStartC (intStr sn) 3 '0') 3 ++ dateStrOf env.now ++
      timeStrOf env.now ++ pad2 env.rand ++
      padStartC (intStr
        ((generateOrderNumber env orderType storeId st).1.dailySequence)) 4 '0' := by
  obtain ⟨v, st2, hg⟩ := genBody_success_shape env orderType storeId st sn hfo hsn
  unfold generateOrderNumber
  rw [hg]

/-- After a date change (the stored date row does not match today) the
allocation returns sequence 1, whatever the rows contain. -/
theorem genBody_reset (env : Env) (orderType storeId : Nat)
    (st : SettingsStore) (sn : Int)
    (hfo : env.fo = noFail)
    (hsn : st.find? (fun r => r.key == "store_number") =
      some ⟨"store_number", .jint sn⟩)
    (hdm : dateMatches (st.find? (fun r => r.key == dateKey))
      (dateStrOf env.now) = false) :
    ∃ r st2, genBody env orderType storeId st = (.ok r, st2) ∧
      r.dailySequence = 1 := by
  have hnk : ∀ k : String, k ∉ (noFail).failKeys := by
    intro k hk
    simp [noFail] at hk
  have hsn2 := storeNumberOf_jint env.fo storeId st sn (hfo ▸ hnk _) hsn
  unfold genBody
  rw [hsn2, hfo]
  dsimp only
  rw [findOneS_pass _ _ _ (hnk _), findOneS_pass _ _ _ (hnk _)]
  dsimp only
  rw [if_neg (by simp [hdm])]
  repeat' split
  all_goals try exact ⟨_, _, rfl, rfl⟩
  all_goals simp [updateFirstE, createE, noFail] at *
  all_goals
    try (rcases hfind : List.find? (fun r => r.key == dateKey) st with _ | _ <;>
      simp_all)
  all_goals
    try (rcases hfind : List.find? (fun r => r.key == sequenceKeyOf orderType) st with
      _ | _ <;> simp_all)

/-- The first allocation after a calendar-day change returns
`dailySequence = 1`. -/
theorem generateOrderNumber_reset_seq (env : Env) (orderType storeId : Nat)
    (st : SettingsStore) (sn : Int)
    (hfo : env.fo = noFail)
    (hsn : st.find? (fun r => r.key == "store_number") =
      some ⟨"store_number", .jint sn⟩)
    (hdm : dateMatches (st.find? (fun r => r.key == dateKey))
      (dateStrOf env.now) = false) :
    (generateOrderNumber env orderType storeId st).1.dailySequence = 1 := by
  obtain ⟨r, st2, hg, hr⟩ := genBody_reset env orderType storeId st sn hfo hsn hdm
  unfold generateOrderNumber
  rw [hg]
  exact hr

/-- A same-day allocation over a counter row holding the integer `m`
returns `m + 1`. -/
theorem generateOrderNumber_match_jint (env : Env) (orderType storeId : Nat)
    (st : SettingsStore) (sn m : Int) (row : SettingRow)
    (hfo : env.fo = noFail)
    (hsn : st.find? (fun r => r.key == "store_number") =
      some ⟨"store_number", .jint sn⟩)
    (hdm : dateMatches (st.find? (fun r => r.key == dateKey))
      (dateStrOf env.now) = true)
    (hseq : st.find? (fun r => r.key == sequenceKeyOf orderType) = some row)
    (hval : row.value = .jint m) :
    (generateOrderNumber env orderType storeId st).1.dailySequence = m + 1 := by
  have hnk : ∀ k : String, k ∉ (noFail).failKeys := by
    intro k hk
    simp [noFail] at hk
  have hsn2 := storeNumberOf_jint env.fo storeId st sn (hfo ▸ hnk _) hsn
  rcases row with ⟨k0, v0⟩
  dsimp only at hval
  subst hval
  unfold generateOrderNumber genBody
  rw [hsn2]
  dsimp only
  rw [hfo, findOneS_pass _ _ _ (hnk _), findOneS_pass _ _ _ (hnk _), hseq]
  dsimp only
  rw [hdm]
  dsimp only [parseIntJV, jsOrInt, Option.getD]
  rw [updateFirstE_pass _ _ _ _ (hnk _)]
  rfl

/-- A same-day allocation with no counter row creates it and returns
1. -/
theorem generateOrderNumber_match_none (env : Env) (orderType storeId : Nat)
    (st : SettingsStore) (sn : Int)
    (hfo : env.fo = noFail)
    (hsn : st.find? (fun r => r.key == "store_number") =
      some ⟨"store_number", .jint sn⟩)
    (hdm : dateMatches (st.find? (fun r => r.key == dateKey))
      (dateStrOf env.now) = true)
    (hseq : st.find? (fun r => r.key == sequenceKeyOf orderType) = none) :
    (generateOrderNumber env orderType storeId st).1.dailySequence = 1 := by
  have hnk : ∀ k : String, k ∉ (noFail).failKeys := by
    intro k hk
    simp [noFail] at hk
  have hsn2 := storeNumberOf_jint env.fo storeId st sn (hfo ▸ hnk _) hsn
  unfold generateOrderNumber genBody
  rw [hsn2]
  dsimp only
  rw [hfo, findOneS_pass _ _ _ (hnk _), findOneS_pass _ _ _ (hnk _), hseq]
  dsimp only
  rw [hdm]
  rw [createE_pass _ _ _ _ (hnk _)]
  rfl

/-- **C4 (amended).** On every successful (non-fallback) allocation —
any run in which no counter-store operation fails — whose
`store_number` setting parses to a nonnegative integer, and with the
clock fields in their real ranges, the composed code is 1 letter ('T'
takeout / 'D' dine-in) followed by 3 digits (store), 8 digits (date),
6 digits (time), 2 digits (random) and
`String(dailySequence).padStart(4, '0')`, a final field of at least 4
characters, whatever the date and counter rows contain. The returned
sequence is 1 on the first allocation after a date change, `m + 1` on a
same-day allocation over a stored integer counter `m`, and 1 when the
counter row is absent; whenever it is nonnegative — so in all of those
states with a nonnegative counter — the final field is all digits,
exactly 4 of them up to 9999 and silently 5 for 10000–99999, with no
cap or error. A `store_number` parsing to NaN or negative yields a
non-digit store field, and a negative stored counter yields a non-digit
sequence field, so the fixed all-digit pattern does not hold of every
successful non-fallback allocation (see the counterexample). -/
theorem order_code_pattern (env : Env) (orderType storeId : Nat)
    (st : SettingsStore) (sn : Int)
    (hfo : env.fo = noFail)
    (hsn : st.find? (fun r => r.key == "store_number") =
      some ⟨"store_number", .jint sn⟩)
    (hsn0 : 0 ≤ sn)
    (hy1 : 1000 ≤ env.now.year) (hy2 : env.now.year ≤ 9999)
    (hmo : env.now.month ≤ 12) (hdy : env.now.day ≤ 31)
    (hh : env.now.hour ≤ 23) (hmi : env.now.minute ≤ 59)
    (hse : env.now.second ≤ 59) (hr : env.rand ≤ 99) :
    ∃ p1 p2 p3 p4 p5 : List Char,
      (generateOrderNumber env orderType storeId st).1.orderNumber.data =
        (if orderType = 1 then 'T' else 'D') :: (p1 ++ p2 ++ p3 ++ p4 ++ p5) ∧
      p5 = (padStartC (intStr
        ((generateOrderNumber env orderType storeId st).1.dailySequence))
        4 '0').data ∧
      p1.length = 3 ∧ p2.length = 8 ∧ p3.length = 6 ∧ p4.length = 2 ∧
      4 ≤ p5.length ∧
      (∀ c ∈ p1 ++ p2 ++ p3 ++ p4, c.isDigit = true) ∧
      (0 ≤ (generateOrderNumber env orderType storeId st).1.dailySequence →
        ∀ c ∈ p5, c.isDigit = true) ∧
      (0 ≤ (generateOrderNumber env orderType storeId st).1.dailySequence →
        (generateOrderNumber env orderType storeId st).1.dailySequence ≤ 9999 →
        p5.length = 4) ∧
      (9999 < (generateOrderNumber env orderType storeId st).1.dailySequence →
        (generateOrderNumber env orderType storeId st).1.dailySequence ≤ 99999 →
        p5.length = 5) ∧
      (dateMatches (st.find? (fun r => r.key == dateKey))
          (dateStrOf env.now) = false →
        (generateOrderNumber env orderType storeId st).1.dailySequence = 1) ∧
      (∀ row m, dateMatches (st.find? (fun r => r.key == dateKey))
          (dateStrOf env.now) = true →
        st.find? (fun r => r.key == sequenceKeyOf orderType) = some row →
        row.value = .jint m →
        (generateOrderNumber env orderType storeId st).1.dailySequence = m + 1) ∧
      (dateMatches (st.find? (fun r => r.key == dateKey))
          (dateStrOf env.now) = true →
        st.find? (fun r => r.key == sequenceKeyOf orderType) = none →
        (generateOrderNumber env orderType storeId st).1.dailySequence = 1) := by
  have hshape := generateOrderNumber_shape env orderType storeId st sn hfo hsn
  have hd1 : ∀ c ∈ (jsTake (padStartC (intStr sn) 3 '0') 3).data,
      c.isDigit = true := by
    apply jsTake_digits
    apply padStartC_digits
    rw [intStr_nonneg sn hsn0]
    exact natStr_all_digits _
  refine ⟨(jsTake (padStartC (intStr sn) 3 '0') 3).data, (dateStrOf env.now).data,
    (timeStrOf env.now).data, (pad2 env.rand).data,
    (padStartC (intStr
      ((generateOrderNumber env orderType storeId st).1.dailySequence))
      4 '0').data,
    ?_, rfl, ?_, ?_, ?_, ?_, ?_, ?_, ?_, ?_, ?_, ?_, ?_, ?_⟩
  · rw [hshape]
    by_cases ho : orderType = 1 <;>
      simp [ho, String.data_append, List.append_assoc]
  · rw [← length_data, jsTake_length, padStartC_length]
    omega
  · rw [← length_data]
    exact dateStrOf_length env.now hy1 hy2 hmo hdy
  · rw [← length_data]
    exact timeStrOf_length env.now hh hmi hse
  · rw [← length_data]
    exact pad2_length env.rand (by omega)
  · rw [← length_data, padStartC_length]
    omega
  · intro c hc
    rw [List.mem_append, List.mem_append, List.mem_append] at hc
    rcases hc with ((hc | hc) | hc) | hc
    · exact hd1 c hc
    · exact dateStrOf_digits env.now c hc
    · exact timeStrOf_digits env.now c hc
    · exact pad2_digits env.rand c hc
  · intro h0
    apply padStartC_digits
    rw [intStr_nonneg _ h0]
    exact natStr_all_digits _
  · intro h0 hle
    rw [← length_data, padStartC_length, intStr_nonneg _ h0]
    have h1 := natStr_length_le
      ((generateOrderNumber env orderType storeId st).1.dailySequence).toNat 4
      (by omega) (by omega)
    have h2 := natStr_length_pos
      ((generateOrderNumber env orderType storeId st).1.dailySequence).toNat
    omega
  · intro hgt hle
    rw [← length_data, padStartC_length, intStr_nonneg _ (by omega)]
    have h1 := natStr_length_le
      ((generateOrderNumber env orderType storeId st).1.dailySequence).toNat 5
      (by omega) (by omega)
    have h2 := natStr_length_ge
      ((generateOrderNumber env orderType storeId st).1.dailySequence).toNat 4
      (by omega)
    omega
  · exact generateOrderNumber_reset_seq env orderType storeId st sn hfo hsn
  · intro row m hdm hseq hval
    exact generateOrderNumber_match_jint env orderType storeId st sn m row
      hfo hsn hdm hseq hval
  · exact generateOrderNumber_match_none env orderType storeId st sn hfo hsn

/-- A counter store with a numeric `store_number` setting. -/
def patternStore : SettingsStore :=
  [⟨"store_number", .jint 12⟩,
   ⟨"daily_sequence_date", .jstr "20250929"⟩,
   ⟨"daily_dine_in_sequence", .jint 3⟩]

/-- Witness for the amended C4 at a concrete store and clock, using the
same-day conjunct to compute the returned sequence 3 + 1. -/
theorem order_code_pattern_witness :
    (generateOrderNumber allocEnv 0 1 patternStore).1.dailySequence = 3 + 1 := by
  obtain ⟨p1, p2, p3, p4, p5, h⟩ := order_code_pattern allocEnv 0 1 patternStore
    12 rfl (by decide) (by decide) (by decide) (by decide) (by decide)
    (by decide) (by decide) (by decide) (by decide) (by decide)
  exact h.2.2.2.2.2.2.2.2.2.2.2.2.1
    ⟨"daily_dine_in_sequence", .jint 3⟩ 3 (by decide) (by decide) rfl

/-- The fixed code pattern exactly as the claim states it: 1 letter
(matching the order kind) + 3 digits + 8 digits + 6 digits + 2 digits +
4-or-more digits. (This definition follows the claim's wording and is
compared against the code's output.) -/
def claimOrderCodePattern (code : String) (orderKind : Nat) : Bool :=
  decide (24 ≤ code.data.length) &&
  (code.data.take 1 == [if orderKind = 1 then 'T' else 'D']) &&
  ((code.data.drop 1).take 3).all Char.isDigit &&
  ((code.data.drop 4).take 8).all Char.isDigit &&
  ((code.data.drop 12).take 6).all Char.isDigit &&
  ((code.data.drop 18).take 2).all Char.isDigit &&
  decide (4 ≤ (code.data.drop 20).length) &&
  (code.data.drop 20).all Char.isDigit

/-- A settings store whose `store_number` was saved as the non-numeric
text `"abc"`: `JSON.parse` succeeds (a JSON string), `parseInt` gives
`NaN`. -/
def badStoreNumberStore : SettingsStore :=
  [⟨"store_number", .jstr "abc"⟩,
   ⟨"daily_sequence_date", .jstr "20250929"⟩,
   ⟨"daily_dine_in_sequence", .jint 3⟩]

/-- A counter store holding the negative counter value -5. -/
def negativeCounterStore : SettingsStore :=
  [⟨"store_number", .jint 12⟩,
   ⟨"daily_sequence_date", .jstr "20250929"⟩,
   ⟨"daily_dine_in_sequence", .jint (-5)⟩]

/-- **C4 (counterexample).** Two successful, non-fallback allocations
that break the claimed fixed pattern. A `store_number` stored as the
text `"abc"` composes `DNaN20250929120039090004` (dailySequence 4):
`String(NaN).padStart(3, '0').slice(0, 3)` puts the letters `NaN` where
the claim requires 3 digits. A stored counter of -5 composes
`D012202509291200390900-4` (dailySequence -4): `parseInt(-5) || 0` is
-5, and `String(-4).padStart(4, '0')` is `00-4`, a non-digit sequence
field. -/
theorem order_code_pattern_counterexample :
    (generateOrderNumber allocEnv 0 1 badStoreNumberStore).1 =
      ⟨"DNaN20250929120039090004", 4⟩ ∧
    claimOrderCodePattern "DNaN20250929120039090004" 0 = false ∧
    (generateOrderNumber allocEnv 0 1 negativeCounterStore).1 =
      ⟨"D012202509291200390900-4", -4⟩ ∧
    claimOrderCodePattern "D012202509291200390900-4" 0 = false := by decide


/-! ## Claim C5: atomicity of order creation -/

/-- A catalog-validation mismatch (the `findAll` row count differs from
the number of input lines) raises the partial-items error before any
transaction, leaving the database unchanged. -/
theorem createOrder_meal_mismatch (env : Env) (inp : CreateInput) (db : DB)
    (hne : inp.items ≠ [])
    (hlen : (db.meals.filter (fun m =>
      (inp.items.map (fun it => it.mealId)).contains m.id && m.isActive)).length ≠
      (inp.items.map (fun it => it.mealId)).length) :
    createOrder env inp db = ⟨.error "部分菜品不存在或已下架", db, false⟩ := by
  have hne2 : ¬ inp.items.isEmpty = true := by
    simp [List.isEmpty_iff, hne]
  unfold createOrder
  rw [if_neg hne2]
  dsimp only
  rw [if_pos hlen]

/-- **C5 (amended).** Order creation leaves the store untouched on
every failure: any call that raises leaves the database exactly as it
was (validation failures occur before the transaction and insert
failures roll it back, so no Order or OrderLine row from the call
survives), and a catalog-validation failure (missing or inactive item)
raises before any transaction is opened. A counter-store failure during
allocation, however, is not a failing step: it is swallowed by the
allocator and the order is committed with the fallback code (see the
counterexample). -/
theorem createOrder_atomic (env : Env) (inp : CreateInput) (db : DB) :
    (∀ e, (createOrder env inp db).result = .error e →
      (createOrder env inp db).db = db) ∧
    (inp.items ≠ [] →
      (db.meals.filter (fun m =>
        (inp.items.map (fun it => it.mealId)).contains m.id && m.isActive)).length ≠
        (inp.items.map (fun it => it.mealId)).length →
      createOrder env inp db = ⟨.error "部分菜品不存在或已下架", db, false⟩) := by
  constructor
  · intro e
    unfold createOrder
    split
    · intro _
      rfl
    · dsimp only
      split
      · intro _
        rfl
      · split
        · intro _
          rfl
        · split
          · intro hc
            simp at hc
          · intro _
            rfl
  · exact createOrder_meal_mismatch env inp db

/-- Witness for the amended C5: a line referencing a missing catalog
item is rejected with the partial-items error, before any transaction,
leaving the database unchanged. -/
theorem createOrder_atomic_witness :
    createOrder allocEnv ⟨[⟨99, 1, 5⟩], 5, 1, 0, none⟩ demoDb =
      ⟨.error "部分菜品不存在或已下架", demoDb, false⟩ :=
  (createOrder_atomic allocEnv ⟨[⟨99, 1, 5⟩], 5, 1, 0, none⟩ demoDb).2
    (by decide) (by decide)

/-- **C5 (counterexample).** The claim lists the allocation among the
steps inside the transaction whose failure leaves no Order row and no
OrderLine row. In this run the counter read fails inside the
transaction, yet `createOrder` commits: one Order row (with the
fallback code `OF47239123`) and one OrderLine row exist afterwards. -/
theorem order_rows_persist_after_counter_failure :
    ((createOrder counterFailEnv demoInput demoDb).db.orders.map
      (fun o => o.orderNumber)) = ["OF47239123"] ∧
    (createOrder counterFailEnv demoInput demoDb).db.orderItems.length = 1 := by
  decide

/-! ## Claim C10: duplicate catalog references are always rejected -/

/-- **C10.** When the catalog's ids are unique (its primary key), an
order whose lines mention the same catalog item id more than once is
always rejected with the partial-items error — even if the item exists
and is active — because `findAll` returns at most one row per distinct
id, so its row count can never reach the number of input lines. No
transaction is opened and the store is left unchanged. -/
theorem duplicate_meal_ids_rejected (env : Env) (inp : CreateInput) (db : DB)
    (hids : (db.meals.map (fun m => m.id)).Nodup)
    (hdup : ¬ (inp.items.map (fun it => it.mealId)).Nodup) :
    createOrder env inp db = ⟨.error "部分菜品不存在或已下架", db, false⟩ := by
  have hne : inp.items ≠ [] := by
    intro h
    apply hdup
    rw [h]
    exact List.nodup_nil
  have hfilter : (db.meals.filter (fun m =>
      (inp.items.map (fun it => it.mealId)).contains m.id && m.isActive)).length <
      (inp.items.map (fun it => it.mealId)).length := by
    set ids := inp.items.map (fun it => it.mealId) with hids_def
    set meals2 := db.meals.filter (fun m => ids.contains m.id && m.isActive)
      with hm2_def
    have hsub : ∀ x ∈ meals2.map (fun m => m.id), x ∈ ids := by
      intro x hx
      rw [List.mem_map] at hx
      obtain ⟨m, hmem, rfl⟩ := hx
      have hp := List.of_mem_filter hmem
      rw [Bool.and_eq_true] at hp
      simpa using hp.1
    have hnodup2 : (meals2.map (fun m => m.id)).Nodup :=
      ((List.filter_sublist db.meals).map (fun m => m.id)).nodup hids
    have hcard1 : (meals2.map (fun m => m.id)).toFinset.card =
        (meals2.map (fun m => m.id)).length :=
      List.toFinset_card_of_nodup hnodup2
    have hsubF : (meals2.map (fun m => m.id)).toFinset ⊆ ids.toFinset := by
      intro x hx
      rw [List.mem_toFinset] at hx ⊢
      exact hsub x hx
    have hcardle := Finset.card_le_card hsubF
    have hcard2 : ids.toFinset.card = ids.dedup.length := List.card_toFinset ids
    have hdlt : ids.dedup.length < ids.length := by
      have hsl := List.dedup_sublist ids
      have hle := hsl.length_le
      rcases Nat.lt_or_ge ids.dedup.length ids.length with h | h
      · exact h
      · exfalso
        have heq : ids.dedup = ids := hsl.eq_of_length (by omega)
        exact hdup (List.dedup_eq_self.mp heq)
    have hmlen : (meals2.map (fun m => m.id)).length = meals2.length :=
      List.length_map _ _
    omega
  exact createOrder_meal_mismatch env inp db hne (by omega)

/-- Witness for C10: a duplicated reference to the existing, active
meal 5 is rejected. -/
theorem duplicate_meal_ids_rejected_witness :
    createOrder allocEnv ⟨[⟨5, 1, 3⟩, ⟨5, 1, 3⟩], 6, 1, 0, none⟩ demoDb =
      ⟨.error "部分菜品不存在或已下架", demoDb, false⟩ :=
  duplicate_meal_ids_rejected allocEnv ⟨[⟨5, 1, 3⟩, ⟨5, 1, 3⟩], 6, 1, 0, none⟩
    demoDb (by decide) (by decide)

end OrderFood
